/-
  Verification of the bazi calculation engine of `ai-bazi-lifetime-blueprint`.

  Shallow embedding of the TypeScript sources:
    - `src/backend/bazi/tenGod.ts`        (ten-god classifier)
    - `src/backend/bazi/utils.ts`         (stems, branches, year/month/day/hour helpers)
    - `src/backend/bazi/luckPillars.ts`   (luck-pillar sequence)
    - `src/backend/bazi/interactionMatrix.ts`
    - `src/backend/bazi/solarTime.ts`     (true-solar-time correction and fallback)
    - `src/backend/bazi/calculationEngine.ts` (month branch table)

  Conventions of the embedding:
    - TypeScript `throw` is modelled by `Option`/`Except` results (`none`/`.error`).
    - JavaScript numbers are modelled by `Int`/`Nat` where the code only ever
      produces integers, and by `ℚ` where fractional values occur (longitude
      correction); JavaScript `%` on integers is `Int.tmod` (sign of dividend).
    - JavaScript `Date` values are modelled by a civil date-time record; the
      host timezone is taken to be UTC (`Date#getTime` uses the proleptic
      Gregorian day number).
-/
import Mathlib

namespace Bazi

/-! ## Core symbol types (`src/types/bazi.ts`) -/

/-- The ten heavenly stems, in the order of `HEAVENLY_STEMS` in `utils.ts`. -/
inductive HeavenlyStem where
  | Jia | Yi | Bing | Ding | Wu | Ji | Geng | Xin | Ren | Gui
  deriving DecidableEq, Repr, Fintype

/-- The twelve earthly branches, in the order of `EARTHLY_BRANCHES` in `utils.ts`. -/
inductive EarthlyBranch where
  | Zi | Chou | Yin | Mao | Chen | Si | Wu | Wei | Shen | You | Xu | Hai
  deriving DecidableEq, Repr, Fintype

/-- The five elements. -/
inductive FiveElement where
  | Wood | Fire | Earth | Metal | Water
  deriving DecidableEq, Repr, Fintype

/-- The ten relational categories returned by the ten-god classifier. -/
inductive TenGod where
  | BiJian | JieCai | ShiShen | ShangGuan | ZhengCai
  | PianCai | ZhengGuan | QiSha | ZhengYin | PianYin
  deriving DecidableEq, Repr, Fintype

/-- Hidden-stem strength grades. -/
inductive Strength where
  | weak | medium | strong
  deriving DecidableEq, Repr, Fintype

/-- Gender as used by the luck-pillar calculator. -/
inductive Gender where
  | male | female
  deriving DecidableEq, Repr, Fintype

/-- `HEAVENLY_STEMS` array from `utils.ts` (stems in cycle order). -/
def HEAVENLY_STEMS : List HeavenlyStem :=
  [.Jia, .Yi, .Bing, .Ding, .Wu, .Ji, .Geng, .Xin, .Ren, .Gui]

/-- `EARTHLY_BRANCHES` array from `utils.ts` (branches in cycle order). -/
def EARTHLY_BRANCHES : List EarthlyBranch :=
  [.Zi, .Chou, .Yin, .Mao, .Chen, .Si, .Wu, .Wei, .Shen, .You, .Xu, .Hai]

/-- `HEAVENLY_STEMS.indexOf(stem)` (always found, so the JS `-1` case is absent). -/
def stemIndex (s : HeavenlyStem) : Nat := HEAVENLY_STEMS.indexOf s

/-- `EARTHLY_BRANCHES.indexOf(branch)`. -/
def branchIndex (b : EarthlyBranch) : Nat := EARTHLY_BRANCHES.indexOf b

/-! ## Ten-god classifier (`src/backend/bazi/tenGod.ts`) -/

/-- `getStemElement`: the five-element attribute of each stem (the `elementMap`
record in `tenGod.ts`). -/
def getStemElement (stem : HeavenlyStem) : FiveElement :=
  match stem with
  | .Jia => .Wood
  | .Yi => .Wood
  | .Bing => .Fire
  | .Ding => .Fire
  | .Wu => .Earth
  | .Ji => .Earth
  | .Geng => .Metal
  | .Xin => .Metal
  | .Ren => .Water
  | .Gui => .Water

/-- `isStemYang`: stems at even index in `HEAVENLY_STEMS` are yang. -/
def isStemYang (stem : HeavenlyStem) : Bool :=
  stemIndex stem % 2 == 0

/-- The `generateMap` record in `calculateTenGod` (element generated by the key). -/
def generateMap (e : FiveElement) : FiveElement :=
  match e with
  | .Wood => .Fire
  | .Fire => .Earth
  | .Earth => .Metal
  | .Metal => .Water
  | .Water => .Wood

/-- The `overcomeMap` record in `calculateTenGod` (element dominated by the key). -/
def overcomeMap (e : FiveElement) : FiveElement :=
  match e with
  | .Wood => .Earth
  | .Fire => .Metal
  | .Earth => .Water
  | .Metal => .Wood
  | .Water => .Fire

/-- The `overcomeByMap` record in `calculateTenGod` (element dominating the key). -/
def overcomeByMap (e : FiveElement) : FiveElement :=
  match e with
  | .Wood => .Metal
  | .Fire => .Water
  | .Earth => .Wood
  | .Metal => .Fire
  | .Water => .Earth

/-- The `generateByMap` record in `calculateTenGod` (element generating the key). -/
def generateByMap (e : FiveElement) : FiveElement :=
  match e with
  | .Wood => .Water
  | .Fire => .Wood
  | .Earth => .Fire
  | .Metal => .Earth
  | .Water => .Metal

/-- `calculateTenGod(dayMaster, otherStem)`: the chain of element/polarity tests
from `tenGod.ts`; the trailing `throw` is modelled by `none`. -/
def calculateTenGod (dayMaster otherStem : HeavenlyStem) : Option TenGod :=
  let dayElement := getStemElement dayMaster
  let otherElement := getStemElement otherStem
  let dayIsYang := isStemYang dayMaster
  let otherIsYang := isStemYang otherStem
  if dayElement = otherElement then
    some (if dayIsYang = otherIsYang then .BiJian else .JieCai)
  else if generateMap dayElement = otherElement then
    some (if dayIsYang = otherIsYang then .ShiShen else .ShangGuan)
  else if overcomeMap dayElement = otherElement then
    some (if dayIsYang = otherIsYang then .ZhengCai else .PianCai)
  else if overcomeByMap dayElement = otherElement then
    some (if dayIsYang = otherIsYang then .ZhengGuan else .QiSha)
  else if generateByMap dayElement = otherElement then
    some (if dayIsYang = otherIsYang then .ZhengYin else .PianYin)
  else
    none

/-! ## Year pillar helpers (`src/backend/bazi/utils.ts`) -/

/-- JavaScript array indexing `xs[i]` with a possibly-negative `Int` index:
`undefined` (here `none`) outside `[0, xs.length)`. -/
def jsGet {α : Type} (xs : List α) (i : Int) : Option α :=
  if h : 0 ≤ i ∧ i.toNat < xs.length then some (xs.get ⟨i.toNat, h.2⟩) else none

/-- `getYearStem(year)`: `(year - 4) % 10` with JS remainder semantics
(`Int.tmod`), normalized to non-negative, then indexed into `HEAVENLY_STEMS`;
the `throw` on a missing element is `none`. -/
def getYearStem (year : Int) : Option HeavenlyStem :=
  let index := (year - 4).tmod 10
  jsGet HEAVENLY_STEMS (if index < 0 then index + 10 else index)

/-- `getYearBranch(year)`: `(year - 4) % 12`, normalized, indexed into
`EARTHLY_BRANCHES`. -/
def getYearBranch (year : Int) : Option EarthlyBranch :=
  let index := (year - 4).tmod 12
  jsGet EARTHLY_BRANCHES (if index < 0 then index + 12 else index)

/-! ## Month branch (`src/backend/bazi/calculationEngine.ts`) -/

/-- The `monthBranchMap` array in `getMonthBranch`. -/
def monthBranchMap : List EarthlyBranch :=
  [.Yin, .Mao, .Chen, .Si, .Wu, .Wei, .Shen, .You, .Xu, .Hai, .Zi, .Chou]

/-- `getMonthBranch(month)`: clamps `month - 1` into `[0, 11]` via
`Math.max(0, Math.min(11, month - 1))` and indexes `monthBranchMap`. -/
def getMonthBranch (month : Int) : Option EarthlyBranch :=
  let index := max 0 (min 11 (month - 1))
  jsGet monthBranchMap index

/-! ## Pillar data model (`src/types/bazi.ts`) -/

/-- An entry of the per-branch hidden-stem table in `utils.ts`. -/
structure BranchHiddenStem where
  stem : HeavenlyStem
  strength : Strength
  deriving DecidableEq, Repr

/-- A decorated hidden stem; `tenGod` holds the classifier result (`none`
would be the classifier's propagated throw, shown unreachable elsewhere). -/
structure HiddenStem where
  stem : HeavenlyStem
  tenGod : Option TenGod
  strength : Strength
  deriving DecidableEq, Repr

/-- A pillar: stem, branch and decorated hidden stems. -/
structure Pillar where
  heavenlyStem : HeavenlyStem
  earthlyBranch : EarthlyBranch
  hiddenStems : List HiddenStem
  deriving DecidableEq, Repr

/-- A luck pillar (`LuckPillar` in `src/types/bazi.ts`). -/
structure LuckPillar where
  index : Nat
  startAge : Int
  endAge : Int
  pillar : Pillar
  deriving DecidableEq, Repr

/-- `getHiddenStemsForBranch` from `utils.ts`: the fixed hidden-stem table. -/
def getHiddenStemsForBranch (branch : EarthlyBranch) : List BranchHiddenStem :=
  match branch with
  | .Zi => [⟨.Gui, .strong⟩]
  | .Chou => [⟨.Ji, .medium⟩, ⟨.Gui, .weak⟩, ⟨.Xin, .weak⟩]
  | .Yin => [⟨.Jia, .strong⟩, ⟨.Bing, .medium⟩, ⟨.Wu, .weak⟩]
  | .Mao => [⟨.Yi, .strong⟩]
  | .Chen => [⟨.Wu, .medium⟩, ⟨.Yi, .weak⟩, ⟨.Gui, .weak⟩]
  | .Si => [⟨.Bing, .strong⟩, ⟨.Wu, .medium⟩, ⟨.Geng, .weak⟩]
  | .Wu => [⟨.Ding, .strong⟩, ⟨.Ji, .medium⟩]
  | .Wei => [⟨.Ji, .medium⟩, ⟨.Ding, .weak⟩, ⟨.Yi, .weak⟩]
  | .Shen => [⟨.Geng, .strong⟩, ⟨.Ren, .medium⟩, ⟨.Wu, .weak⟩]
  | .You => [⟨.Xin, .strong⟩]
  | .Xu => [⟨.Wu, .medium⟩, ⟨.Xin, .weak⟩, ⟨.Ding, .weak⟩]
  | .Hai => [⟨.Ren, .strong⟩, ⟨.Jia, .medium⟩]

/-! ## Luck pillars (`src/backend/bazi/luckPillars.ts`) -/

/-- `shouldReverseLuck(yearStem, gender)`: reverse for male with yin year stem
or female with yang year stem. -/
def shouldReverseLuck (yearStem : HeavenlyStem) (gender : Gender) : Bool :=
  let yearIndex := stemIndex yearStem
  let isYearYang := yearIndex % 2 == 0
  match gender with
  | .male => !isYearYang
  | .female => isYearYang

/-- A JavaScript `Date`, modelled as a civil local date plus milliseconds of
day; the host timezone is UTC, so `getTime` is the Gregorian epoch offset. -/
structure JSDate where
  year : Int
  month : Int
  day : Int
  msOfDay : Int
  deriving DecidableEq, Repr

/-- Proleptic-Gregorian day number from civil year/month(1-based)/day
(days since 1970-01-01). -/
def daysFromCivil (y m d : Int) : Int :=
  let y2 := if m ≤ 2 then y - 1 else y
  let era := y2 / 400
  let yoe := y2 - era * 400
  let mp := (m + 9) % 12
  let doy := (153 * mp + 2) / 5 + d - 1
  let doe := yoe * 365 + yoe / 4 - yoe / 100 + doy
  era * 146097 + doe - 719468

/-- `Date#getTime` in milliseconds (UTC host). `month` is 0-based as in JS. -/
def JSDate.getTime (dt : JSDate) : Int :=
  daysFromCivil dt.year (dt.month + 1) dt.day * 86400000 + dt.msOfDay

/-- `Date#getFullYear`. -/
def JSDate.getFullYear (dt : JSDate) : Int := dt.year

/-- `new Date(year, monthIndex, day)` (midnight, components in range). -/
def mkDate (y m d : Int) : JSDate := ⟨y, m, d, 0⟩

/-- The simplified fixed solar-term table `(month, day)` from
`getNextSolarTerm` in `luckPillars.ts`. -/
def solarTerms : List (Int × Int) :=
  [(2, 4), (3, 6), (4, 5), (5, 6), (6, 6), (7, 7),
   (8, 8), (9, 8), (10, 8), (11, 8), (12, 7), (1, 6)]

/-- The civil date of a solar term entry for the year of the birth date
(the January term belongs to the previous year in the reverse search). -/
def termDateReverse (year : Int) (t : Int × Int) : JSDate :=
  mkDate (if t.1 = 1 then year - 1 else year) (t.1 - 1) t.2

/-- `getNextSolarTerm(birthDate, reverse)`: the previous (reverse) or next
(forward) solar-term date, with the year-boundary defaults of the source. -/
def getNextSolarTerm (birthDate : JSDate) (reverse : Bool) : JSDate :=
  let year := birthDate.getFullYear
  if reverse then
    match solarTerms.reverse.find?
        (fun t => (termDateReverse year t).getTime ≤ birthDate.getTime) with
    | some t => termDateReverse year t
    | none => mkDate (year - 1) 0 6
  else
    match solarTerms.find?
        (fun t => birthDate.getTime < (mkDate year (t.1 - 1) t.2).getTime) with
    | some t => mkDate year (t.1 - 1) t.2
    | none => mkDate (year + 1) 1 4

/-- `calculateStartAge(step, birthDate, reverse)`: days to the nearest solar
term (absolute, floored), 3 days per year, plus `(step − 1) × 10`. -/
def calculateStartAge (step : Nat) (birthDate : JSDate) (reverse : Bool) : Int :=
  let solarTermDate := getNextSolarTerm birthDate reverse
  let daysDiff := |(solarTermDate.getTime - birthDate.getTime) / 86400000|
  let firstStepStartAge := daysDiff / 3
  firstStepStartAge + ((step : Int) - 1) * 10

/-- `calculateLuckPillar(monthStem, monthBranch, step, reverse)`: steps the
month pillar by `direction × step` (JS `%` with a `+10`/`+12` fixup) and
decorates hidden stems against the month stem; `none` models the throws. -/
def calculateLuckPillar (monthStem : HeavenlyStem) (monthBranch : EarthlyBranch)
    (step : Nat) (reverse : Bool) : Option Pillar :=
  let monthStemIndex := stemIndex monthStem
  if monthStemIndex ≥ HEAVENLY_STEMS.length then none
  else
    let monthBranchIndex := branchIndex monthBranch
    if monthBranchIndex ≥ EARTHLY_BRANCHES.length then none
    else
      let direction : Int := if reverse then -1 else 1
      let newStemIndex := ((monthStemIndex : Int) + direction * (step : Int) + 10).tmod 10
      let newBranchIndex := ((monthBranchIndex : Int) + direction * (step : Int) + 12).tmod 12
      match jsGet HEAVENLY_STEMS newStemIndex, jsGet EARTHLY_BRANCHES newBranchIndex with
      | some stem, some branch =>
          let dayMaster := monthStem
          some { heavenlyStem := stem, earthlyBranch := branch,
                 hiddenStems := (getHiddenStemsForBranch branch).map (fun h =>
                   { stem := h.stem, tenGod := calculateTenGod dayMaster h.stem,
                     strength := h.strength }) }
      | _, _ => none

/-- `calculateLuckPillars`: 8 steps, each with pillar, start age and end age;
`none` models a propagated throw from `calculateLuckPillar`. -/
def calculateLuckPillars (yearStem monthStem : HeavenlyStem)
    (monthBranch : EarthlyBranch) (gender : Gender) (dayMaster : HeavenlyStem)
    (birthDate : JSDate) : Option (List LuckPillar) :=
  let reverse := shouldReverseLuck yearStem gender
  (List.range 8).mapM (fun k =>
    (calculateLuckPillar monthStem monthBranch (k + 1) reverse).map (fun pillar =>
      let startAge := calculateStartAge (k + 1) birthDate reverse
      { index := k + 1, startAge := startAge, endAge := startAge + 9,
        pillar := pillar }))

/-! ## Interaction matrix (`src/backend/bazi/interactionMatrix.ts`) -/

/-- The four pillar positions (`keyof FourPillars`; the `"luck"` variant of the
TS union is never produced by `calculateInteractionMatrix`). -/
inductive PillarKey where
  | year | month | day | hour
  deriving DecidableEq, Repr, Fintype

/-- The four relationship types. -/
inductive InteractionType where
  | chong | he | xing | hai
  deriving DecidableEq, Repr, Fintype

/-- An interaction entry; the source fields `from`/`to` are Lean keywords and
are embedded as `fromKey`/`toKey`. -/
structure InteractionEntry where
  type : InteractionType
  fromKey : PillarKey
  toKey : PillarKey
  description : String
  deriving DecidableEq, Repr

/-- The interaction matrix wrapper. -/
structure InteractionMatrix where
  entries : List InteractionEntry
  deriving DecidableEq, Repr

/-- The four pillars of a chart. -/
structure FourPillars where
  year : Pillar
  month : Pillar
  day : Pillar
  hour : Pillar
  deriving DecidableEq, Repr

/-- `CHONG_MAP`: each branch's unique clash partner. -/
def CHONG_MAP (b : EarthlyBranch) : EarthlyBranch :=
  match b with
  | .Zi => .Wu | .Chou => .Wei | .Yin => .Shen | .Mao => .You
  | .Chen => .Xu | .Si => .Hai | .Wu => .Zi | .Wei => .Chou
  | .Shen => .Yin | .You => .Mao | .Xu => .Chen | .Hai => .Si

/-- `HE_MAP`: the partial six-combine pairing (`null` for `Mao`/`Si`). -/
def HE_MAP (b : EarthlyBranch) : Option EarthlyBranch :=
  match b with
  | .Zi => some .Chou | .Chou => some .Zi | .Yin => some .Hai | .Mao => none
  | .Chen => some .You | .Si => none | .Wu => some .Wei | .Wei => some .Wu
  | .Shen => some .Si | .You => some .Chen | .Xu => some .Mao | .Hai => some .Yin

/-- `isChong(branch1, branch2)`. -/
def isChong (branch1 branch2 : EarthlyBranch) : Bool :=
  CHONG_MAP branch1 == branch2

/-- `isHe(branch1, branch2)` (`null === branch2` is `false`). -/
def isHe (branch1 branch2 : EarthlyBranch) : Bool :=
  HE_MAP branch1 == some branch2

/-- The `xingGroups` punishment triads of `isXing`. -/
def xingGroups : List (List EarthlyBranch) :=
  [[.Yin, .Si, .Shen], [.Chou, .Wei, .Xu], [.Zi, .Mao]]

/-- `isXing(branch1, branch2)`: both branches in one group and distinct. -/
def isXing (branch1 branch2 : EarthlyBranch) : Bool :=
  xingGroups.any (fun group =>
    group.contains branch1 && group.contains branch2 && branch1 != branch2)

/-- The `haiPairs` harm table of `isHai`. -/
def haiPairs : List (EarthlyBranch × EarthlyBranch) :=
  [(.Zi, .Wei), (.Chou, .Wu), (.Yin, .Si), (.Mao, .Chen), (.Shen, .Hai), (.You, .Xu)]

/-- `isHai(branch1, branch2)`: matches a harm pair in either order. -/
def isHai (branch1 branch2 : EarthlyBranch) : Bool :=
  haiPairs.any (fun p =>
    (p.1 == branch1 && p.2 == branch2) || (p.1 == branch2 && p.2 == branch1))

/-- The display name of a pillar key, as interpolated in the descriptions. -/
def pillarKeyName (k : PillarKey) : String :=
  match k with
  | .year => "year" | .month => "month" | .day => "day" | .hour => "hour"

/-- The entries produced by one iteration of the double loop of
`calculateInteractionMatrix` for the pillar pair `(k1, k2)` (`i < j`). -/
def pairEntries (k1 k2 : PillarKey) (branch1 branch2 : EarthlyBranch) :
    List InteractionEntry :=
  (if isChong branch1 branch2 then
    [{ type := .chong, fromKey := k1, toKey := k2,
       description := pillarKeyName k1 ++ "冲" ++ pillarKeyName k2 }] else []) ++
  (if isHe branch1 branch2 then
    [{ type := .he, fromKey := k1, toKey := k2,
       description := pillarKeyName k1 ++ "合" ++ pillarKeyName k2 }] else []) ++
  (if isXing branch1 branch2 then
    [{ type := .xing, fromKey := k1, toKey := k2,
       description := pillarKeyName k1 ++ "刑" ++ pillarKeyName k2 }] else []) ++
  (if isHai branch1 branch2 then
    [{ type := .hai, fromKey := k1, toKey := k2,
       description := pillarKeyName k1 ++ "害" ++ pillarKeyName k2 }] else [])

/-- `calculateInteractionMatrix(fourPillars)`: the double loop over the six
index pairs `i < j` of `[year, month, day, hour]`, in push order. -/
def calculateInteractionMatrix (fourPillars : FourPillars) : InteractionMatrix :=
  { entries :=
      pairEntries .year .month fourPillars.year.earthlyBranch fourPillars.month.earthlyBranch ++
      pairEntries .year .day fourPillars.year.earthlyBranch fourPillars.day.earthlyBranch ++
      pairEntries .year .hour fourPillars.year.earthlyBranch fourPillars.hour.earthlyBranch ++
      pairEntries .month .day fourPillars.month.earthlyBranch fourPillars.day.earthlyBranch ++
      pairEntries .month .hour fourPillars.month.earthlyBranch fourPillars.hour.earthlyBranch ++
      pairEntries .day .hour fourPillars.day.earthlyBranch fourPillars.hour.earthlyBranch }

/-- The six unordered pillar pairs, in loop order. -/
def sixPillarPairs : List (PillarKey × PillarKey) :=
  [(.year, .month), (.year, .day), (.year, .hour),
   (.month, .day), (.month, .hour), (.day, .hour)]

/-! ## Solar time (`src/backend/bazi/solarTime.ts`)

JavaScript numbers are embedded as `ℚ` (the arithmetic the claims concern is
exact there); timestamps in milliseconds as `Int`. The host's floating-point
trigonometry and the IANA timezone database of `date-fns-tz` are not part of
the repository: they enter as an abstract `Platform` parameter, so everything
proved below holds for every instantiation. -/

/-- `Coordinates` from `geoTypes.ts`. -/
structure Coordinates where
  latitude : ℚ
  longitude : ℚ
  deriving DecidableEq, Repr

/-- `GeoResolutionResult` from `geoTypes.ts` (`timezone?` is optional). -/
structure GeoResolutionResult where
  coordinates : Coordinates
  timezone : Option String
  isApproximate : Bool
  deriving DecidableEq, Repr

/-- `SolarTimeResult` from `solarTime.ts`. -/
structure SolarTimeResult where
  solarTimeIso : String
  longitudeCorrectionMinutes : ℚ
  equationOfTimeMinutes : ℚ
  timezone : Option String
  applied : Bool
  warning : Option String
  deriving DecidableEq, Repr

/-- JS truthiness of an optional string (`undefined` and `""` are falsy). -/
def jsTruthyString (s : Option String) : Bool :=
  match s with
  | some str => !(str == "")
  | none => false

/-- Abstract host primitives: a rational stand-in for `Math.PI`, the host's
`Math.sin`/`Math.cos`, and the `date-fns-tz` conversions backed by the IANA
database (`fromZonedTime` to epoch milliseconds, `formatInTimeZone` back to a
local ISO string). -/
structure Platform where
  pi : ℚ
  sin : ℚ → ℚ
  cos : ℚ → ℚ
  fromZonedTime : Int → String → Int
  formatInTimeZone : ℚ → String → String

/-- `timezoneMeridians` from `getTimezoneCentralMeridian`. -/
def timezoneMeridians : List (String × ℚ) :=
  [("Asia/Shanghai", 120), ("Asia/Hong_Kong", 120), ("Asia/Taipei", 120),
   ("Asia/Tokyo", 135), ("Asia/Seoul", 135), ("Asia/Singapore", 105),
   ("Asia/Bangkok", 105), ("Asia/Kolkata", 82.5), ("Australia/Sydney", 150),
   ("Australia/Melbourne", 150), ("Pacific/Auckland", 180),
   ("America/New_York", -75), ("America/Chicago", -90),
   ("America/Los_Angeles", -120), ("America/Sao_Paulo", -45),
   ("America/Argentina/Buenos_Aires", -60), ("Europe/London", 0),
   ("Europe/Paris", 15), ("Europe/Berlin", 15), ("Europe/Rome", 15),
   ("Europe/Moscow", 37.5), ("Asia/Dubai", 60), ("Asia/Jerusalem", 35)]

/-- `getTimezoneCentralMeridian(timezone)`: table lookup, `?? 0`. -/
def getTimezoneCentralMeridian (timezone : String) : ℚ :=
  (timezoneMeridians.lookup timezone).getD 0

/-- `Math.round` (round half up, as JS). -/
def jsRound (x : ℚ) : ℚ := ((x + 1 / 2).floor : ℚ)

/-- `computeLongitudeCorrectionMinutes(longitude, timezone?)`. -/
def computeLongitudeCorrectionMinutes (longitude : ℚ) (timezone : Option String) : ℚ :=
  let centralMeridian : ℚ :=
    if jsTruthyString timezone then
      getTimezoneCentralMeridian (timezone.getD "")
    else
      jsRound (longitude / 15) * 15
  let deltaLongitude := longitude - centralMeridian
  let minutesPerDegree : ℚ := 4
  deltaLongitude * minutesPerDegree

/-- `computeEquationOfTime(dayOfYear)`: the sinusoidal approximation, with the
host trigonometry abstract. -/
def computeEquationOfTime (pf : Platform) (dayOfYear : Int) : ℚ :=
  let B : ℚ := (360 / 365) * ((dayOfYear : ℚ) - 81)
  let BRad := B * pf.pi / 180
  9.87 * pf.sin (2 * BRad) - 7.53 * pf.cos BRad - 1.5 * pf.sin BRad

/-- `dstTimezones` of `isDaylightSavingTime`. -/
def dstTimezones : List String :=
  ["America/New_York", "America/Chicago", "America/Denver",
   "America/Los_Angeles", "America/Phoenix", "Europe/London", "Europe/Paris",
   "Europe/Berlin", "Europe/Rome"]

/-- `isDaylightSavingTime(year, month, day, timezone)`: the simplified
March–October window. -/
def isDaylightSavingTime (year month day : Int) (timezone : String) : Bool :=
  if !(dstTimezones.contains timezone) then false
  else if timezone == "America/Phoenix" then false
  else 3 ≤ month && month ≤ 10

/-- A civil date-time with the component ranges of a real timestamp not yet
enforced (the regex of `toTrueSolarTime` checks digits only). -/
structure CivilDateTime where
  year : Nat
  month : Nat
  day : Nat
  hour : Nat
  minute : Nat
  second : Nat
  deriving DecidableEq, Repr

/-- Numeric value of a run of decimal digit characters. -/
def digitsVal (cs : List Char) : Nat :=
  cs.foldl (fun acc c => acc * 10 + (c.toNat - 48)) 0

/-- The regex `^\d{4}-\d{2}-\d{2}T\d{2}:\d{2}:\d{2}$` of `toTrueSolarTime`:
shape and digits only, no range validation. -/
def matchDateTimeShape (s : String) : Option CivilDateTime :=
  match s.data with
  | [y1, y2, y3, y4, '-', m1, m2, '-', d1, d2, 'T',
     h1, h2, ':', mi1, mi2, ':', s1, s2] =>
      if [y1, y2, y3, y4, m1, m2, d1, d2, h1, h2, mi1, mi2, s1, s2].all Char.isDigit then
        some { year := digitsVal [y1, y2, y3, y4], month := digitsVal [m1, m2],
               day := digitsVal [d1, d2], hour := digitsVal [h1, h2],
               minute := digitsVal [mi1, mi2], second := digitsVal [s1, s2] }
      else none
  | _ => none

/-- Leap-year test of the Gregorian calendar. -/
def isLeapYear (y : Nat) : Bool :=
  (y % 4 == 0 && y % 100 != 0) || y % 400 == 0

/-- Days in a civil month. -/
def daysInMonth (y m : Nat) : Nat :=
  if m = 2 then (if isLeapYear y then 29 else 28)
  else if m = 4 ∨ m = 6 ∨ m = 9 ∨ m = 11 then 30
  else 31

/-- Model of `new Date(string)` for the repository's documented local
timestamp format `YYYY-MM-DDTHH:mm:ss`: the shape of the string is checked and
the calendar components validated, as the host parser does for ISO strings;
everything else is an invalid date (`none`). -/
def jsParseDate (s : String) : Option CivilDateTime :=
  match matchDateTimeShape s with
  | none => none
  | some d =>
      if 1 ≤ d.month ∧ d.month ≤ 12 ∧ 1 ≤ d.day ∧ d.day ≤ daysInMonth d.year d.month ∧
          d.hour ≤ 23 ∧ d.minute ≤ 59 ∧ d.second ≤ 59 then
        some d
      else none

/-- Left-pad the decimal representation of `n` with zeros to `width` digits. -/
def padNum (width n : Nat) : String :=
  let s := Nat.repr n
  String.mk (List.replicate (width - s.length) '0') ++ s

/-- `Date#toISOString` under a UTC host: the UTC ISO-8601 form with
milliseconds and the `Z` suffix. -/
def toISOStringUTC (d : CivilDateTime) : String :=
  padNum 4 d.year ++ "-" ++ padNum 2 d.month ++ "-" ++ padNum 2 d.day ++ "T" ++
    padNum 2 d.hour ++ ":" ++ padNum 2 d.minute ++ ":" ++ padNum 2 d.second ++ ".000Z"

/-- `fallbackSolarTime(localDateIso)`: no correction, `applied=false`, fixed
warning; the throw on an unparseable timestamp is `.error "INVALID_DATE"`. -/
def fallbackSolarTime (localDateIso : String) : Except String SolarTimeResult :=
  match jsParseDate localDateIso with
  | none => Except.error "INVALID_DATE"
  | some localDate =>
      Except.ok
        { solarTimeIso := toISOStringUTC localDate
          longitudeCorrectionMinutes := 0
          equationOfTimeMinutes := 0
          timezone := none
          applied := false
          warning := some "True Solar Time not applied (Location unknown)." }

/-- The civil year containing a Gregorian day number (for
`Date#getUTCFullYear`). -/
def civilYearFromDays (z : Int) : Int :=
  let z2 := z + 719468
  let era := z2 / 146097
  let doe := z2 - era * 146097
  let yoe := (doe - doe / 1460 + doe / 36524 - doe / 146096) / 365
  let y := yoe + era * 400
  let doy := doe - (365 * yoe + yoe / 4 - yoe / 100)
  let mp := (5 * doy + 2) / 153
  let m := if mp < 10 then mp + 3 else mp - 9
  if m ≤ 2 then y + 1 else y

/-- `toTrueSolarTime(localDateTime, geoResult)`: the missing-timezone and
malformed-timestamp error paths, then the correction pipeline of the source
(DST normalization, longitude correction, equation of time, re-formatting via
the platform's timezone database). -/
def toTrueSolarTime (pf : Platform) (localDateTime : String)
    (geoResult : GeoResolutionResult) : Except String SolarTimeResult :=
  if !(jsTruthyString geoResult.timezone) then
    Except.error "Timezone is required for True Solar Time calculation"
  else
    match matchDateTimeShape localDateTime with
    | none => Except.error "INVALID_DATE_FORMAT"
    | some d =>
        let tz := geoResult.timezone.getD ""
        let utcDate := pf.fromZonedTime
          (daysFromCivil (d.year : Int) (d.month : Int) (d.day : Int) * 86400000 +
            ((d.hour : Int) * 3600 + (d.minute : Int) * 60 + (d.second : Int)) * 1000) tz
        let isDST := isDaylightSavingTime (d.year : Int) (d.month : Int) (d.day : Int) tz
        let dstOffsetMs : Int := if isDST then 60 * 60 * 1000 else 0
        let utcForStandardTime := utcDate - dstOffsetMs
        let longitudeCorrection :=
          computeLongitudeCorrectionMinutes geoResult.coordinates.longitude geoResult.timezone
        let yearStartUTC :=
          daysFromCivil (civilYearFromDays (utcForStandardTime / 86400000)) 1 1 * 86400000
        let dayOfYear := (utcForStandardTime - yearStartUTC) / 86400000 + 1
        let equationOfTime := computeEquationOfTime pf dayOfYear
        let totalCorrectionMinutes := longitudeCorrection + equationOfTime
        let solarUtcDate : ℚ := (utcForStandardTime : ℚ) + totalCorrectionMinutes * 60 * 1000
        Except.ok
          { solarTimeIso := pf.formatInTimeZone solarUtcDate tz
            longitudeCorrectionMinutes := longitudeCorrection
            equationOfTimeMinutes := equationOfTime
            timezone := geoResult.timezone
            applied := true
            warning := none }

end Bazi

namespace Bazi

/-- C1: `calculateTenGod` is total over all 100 ordered stem pairs (the trailing
`throw` branch is unreachable); classifying a stem against itself yields
`BiJian`, and classifying it against the opposite-polarity stem of the same
element yields `JieCai`. -/
theorem calculateTenGod_total_and_siblings :
    (∀ dayMaster otherStem : HeavenlyStem,
        ∃ god : TenGod, calculateTenGod dayMaster otherStem = some god) ∧
    (∀ s : HeavenlyStem, calculateTenGod s s = some TenGod.BiJian) ∧
    (∀ s t : HeavenlyStem, getStemElement s = getStemElement t →
        isStemYang s ≠ isStemYang t → calculateTenGod s t = some TenGod.JieCai) := by
  refine ⟨?_, ?_, ?_⟩ <;> decide

/-- Witness for C1: evaluation at concrete stems, discharging the hypotheses of
the third conjunct at `Jia`/`Yi` (same element `Wood`, opposite polarity). -/
theorem calculateTenGod_total_and_siblings_witness :
    calculateTenGod HeavenlyStem.Bing HeavenlyStem.Bing = some TenGod.BiJian ∧
    calculateTenGod HeavenlyStem.Jia HeavenlyStem.Yi = some TenGod.JieCai := by
  refine ⟨calculateTenGod_total_and_siblings.2.1 HeavenlyStem.Bing,
    calculateTenGod_total_and_siblings.2.2 HeavenlyStem.Jia HeavenlyStem.Yi
      (by decide) (by decide)⟩

/-- The JS-remainder index of `getYearStem`, after the negative-branch fixup,
is the Euclidean remainder. -/
lemma tmod_fixup_eq_emod_ten (a : Int) :
    (if a.tmod 10 < 0 then a.tmod 10 + 10 else a.tmod 10) = a % 10 := by
  cases a with
  | ofNat m =>
      have h : (Int.ofNat m).tmod 10 = ((m % 10 : Nat) : Int) := rfl
      rw [h, Int.ofNat_eq_natCast]
      split <;> omega
  | negSucc m =>
      have h : (Int.negSucc m).tmod 10 = -(((m + 1) % 10 : Nat) : Int) := rfl
      rw [h, Int.negSucc_eq]
      split <;> omega

/-- As `tmod_fixup_eq_emod_ten`, for the branch cycle length 12. -/
lemma tmod_fixup_eq_emod_twelve (a : Int) :
    (if a.tmod 12 < 0 then a.tmod 12 + 12 else a.tmod 12) = a % 12 := by
  cases a with
  | ofNat m =>
      have h : (Int.ofNat m).tmod 12 = ((m % 12 : Nat) : Int) := rfl
      rw [h, Int.ofNat_eq_natCast]
      split <;> omega
  | negSucc m =>
      have h : (Int.negSucc m).tmod 12 = -(((m + 1) % 12 : Nat) : Int) := rfl
      rw [h, Int.negSucc_eq]
      split <;> omega

/-- `jsGet` into `HEAVENLY_STEMS` succeeds at every Euclidean remainder mod 10. -/
lemma jsGet_stems_emod (a : Int) : ∃ s, jsGet HEAVENLY_STEMS (a % 10) = some s := by
  have h0 : 0 ≤ a % 10 := Int.emod_nonneg a (by norm_num)
  have h1 : a % 10 < 10 := Int.emod_lt_of_pos a (by norm_num)
  have hcond : 0 ≤ a % 10 ∧ (a % 10).toNat < HEAVENLY_STEMS.length := by
    have hlen : HEAVENLY_STEMS.length = 10 := by decide
    refine ⟨h0, ?_⟩
    rw [hlen]; omega
  exact ⟨_, by unfold jsGet; rw [dif_pos hcond]⟩

/-- `jsGet` into `EARTHLY_BRANCHES` succeeds at every Euclidean remainder mod 12. -/
lemma jsGet_branches_emod (a : Int) :
    ∃ b, jsGet EARTHLY_BRANCHES (a % 12) = some b := by
  have h0 : 0 ≤ a % 12 := Int.emod_nonneg a (by norm_num)
  have h1 : a % 12 < 12 := Int.emod_lt_of_pos a (by norm_num)
  have hcond : 0 ≤ a % 12 ∧ (a % 12).toNat < EARTHLY_BRANCHES.length := by
    have hlen : EARTHLY_BRANCHES.length = 12 := by decide
    refine ⟨h0, ?_⟩
    rw [hlen]; omega
  exact ⟨_, by unfold jsGet; rw [dif_pos hcond]⟩

/-- `getYearStem` in terms of the Euclidean remainder. -/
lemma getYearStem_eq_emod (year : Int) :
    getYearStem year = jsGet HEAVENLY_STEMS ((year - 4) % 10) := by
  have h := tmod_fixup_eq_emod_ten (year - 4)
  simp only [getYearStem]
  rw [h]

/-- `getYearBranch` in terms of the Euclidean remainder. -/
lemma getYearBranch_eq_emod (year : Int) :
    getYearBranch year = jsGet EARTHLY_BRANCHES ((year - 4) % 12) := by
  have h := tmod_fixup_eq_emod_twelve (year - 4)
  simp only [getYearBranch]
  rw [h]

/-- C8: `getYearStem` and `getYearBranch` are defined for every integer year
(the normalized index is non-negative and in range, so the error branch is
unreachable) and are periodic with periods 10 and 12 respectively. -/
theorem yearSymbols_total_and_periodic :
    (∀ year : Int,
        (∃ s, getYearStem year = some s) ∧ (∃ b, getYearBranch year = some b)) ∧
    (∀ year : Int, getYearStem (year + 10) = getYearStem year) ∧
    (∀ year : Int, getYearBranch (year + 12) = getYearBranch year) := by
  refine ⟨fun year => ⟨?_, ?_⟩, fun year => ?_, fun year => ?_⟩
  · rw [getYearStem_eq_emod]; exact jsGet_stems_emod _
  · rw [getYearBranch_eq_emod]; exact jsGet_branches_emod _
  · rw [getYearStem_eq_emod, getYearStem_eq_emod]
    congr 1
    omega
  · rw [getYearBranch_eq_emod, getYearBranch_eq_emod]
    congr 1
    omega

/-- C10: `getMonthBranch` is total over all integers (the clamp keeps the index
in `[0, 11]`), months 1–12 map in order to `Yin` … `Chou`, every month below 1
maps to `Yin`, and every month above 12 maps to `Chou`. -/
theorem getMonthBranch_total_and_clamped :
    (∀ month : Int, ∃ b, getMonthBranch month = some b) ∧
    (getMonthBranch 1 = some .Yin ∧ getMonthBranch 2 = some .Mao ∧
     getMonthBranch 3 = some .Chen ∧ getMonthBranch 4 = some .Si ∧
     getMonthBranch 5 = some .Wu ∧ getMonthBranch 6 = some .Wei ∧
     getMonthBranch 7 = some .Shen ∧ getMonthBranch 8 = some .You ∧
     getMonthBranch 9 = some .Xu ∧ getMonthBranch 10 = some .Hai ∧
     getMonthBranch 11 = some .Zi ∧ getMonthBranch 12 = some .Chou) ∧
    (∀ month : Int, month < 1 → getMonthBranch month = some .Yin) ∧
    (∀ month : Int, 12 < month → getMonthBranch month = some .Chou) := by
  refine ⟨fun month => ?_, by decide, fun month hm => ?_, fun month hm => ?_⟩
  · have h0 : (0 : Int) ≤ max 0 (min 11 (month - 1)) := le_max_left _ _
    have h11 : max 0 (min 11 (month - 1)) ≤ 11 := by omega
    have hcond : 0 ≤ max 0 (min 11 (month - 1)) ∧
        (max 0 (min 11 (month - 1))).toNat < monthBranchMap.length := by
      refine ⟨h0, ?_⟩
      have : monthBranchMap.length = 12 := by decide
      rw [this]; omega
    exact ⟨_, by unfold getMonthBranch jsGet; rw [dif_pos hcond]⟩
  · have hidx : max 0 (min 11 (month - 1)) = 0 := by omega
    unfold getMonthBranch
    rw [hidx]
    decide
  · have hidx : max 0 (min 11 (month - 1)) = 11 := by omega
    unfold getMonthBranch
    rw [hidx]
    decide

/-- Witness for C10: evaluation at out-of-range months 0 and 13. -/
theorem getMonthBranch_total_and_clamped_witness :
    getMonthBranch 0 = some .Yin ∧ getMonthBranch 13 = some .Chou :=
  ⟨getMonthBranch_total_and_clamped.2.2.1 0 (by norm_num),
   getMonthBranch_total_and_clamped.2.2.2 13 (by norm_num)⟩

/-- `calculateLuckPillar` succeeds for every month pillar and every step
`1 ≤ n ≤ 8` (the throw branches are unreachable there). -/
lemma calculateLuckPillar_isSome (ms : HeavenlyStem) (mb : EarthlyBranch)
    (rev : Bool) (n : Nat) (h1 : 1 ≤ n) (h2 : n ≤ 8) :
    (calculateLuckPillar ms mb n rev).isSome = true := by
  revert ms mb rev
  interval_cases n <;> decide

/-- `calculateStartAge` grows by exactly 10 from one step to the next. -/
lemma calculateStartAge_add_one (n : Nat) (bd : JSDate) (rev : Bool) :
    calculateStartAge (n + 1) bd rev = calculateStartAge n bd rev + 10 := by
  simp only [calculateStartAge]
  push_cast
  ring

/-- C3: luck direction is forward exactly for (male, yang year stem) or
(female, yin year stem); each luck pillar steps the month pillar's stem and
branch indices by `direction × n` mod 10 and mod 12 independently, and its
hidden stems are ten-god-classified against the month stem as reference. -/
theorem luckPillar_direction_and_stepping :
    (∀ (ys : HeavenlyStem) (g : Gender),
        shouldReverseLuck ys g = false ↔
          ((g = .male ∧ isStemYang ys = true) ∨ (g = .female ∧ isStemYang ys = false))) ∧
    (∀ (ms : HeavenlyStem) (mb : EarthlyBranch) (rev : Bool) (n : Nat),
        1 ≤ n → n ≤ 8 →
        ((calculateLuckPillar ms mb n rev).map (fun p => (stemIndex p.heavenlyStem : Int)) =
          some (((stemIndex ms : Int) + (if rev then -1 else 1) * (n : Int)) % 10)) ∧
        ((calculateLuckPillar ms mb n rev).map (fun p => (branchIndex p.earthlyBranch : Int)) =
          some (((branchIndex mb : Int) + (if rev then -1 else 1) * (n : Int)) % 12)) ∧
        ((calculateLuckPillar ms mb n rev).map (fun p => p.hiddenStems) =
          (calculateLuckPillar ms mb n rev).map (fun p =>
            (getHiddenStemsForBranch p.earthlyBranch).map (fun h =>
              { stem := h.stem, tenGod := calculateTenGod ms h.stem,
                strength := h.strength })))) := by
  constructor
  · decide
  · intro ms mb rev n h1 h2
    revert ms mb rev
    interval_cases n <;> decide

/-- Witness for C3: step 1 of `Bing`/`Yin` forward lands on stem index 3,
branch index 3, with hidden stems classified against the month stem `Bing`. -/
theorem luckPillar_direction_and_stepping_witness :
    ((calculateLuckPillar .Bing .Yin 1 false).map
        (fun p => (stemIndex p.heavenlyStem : Int)) = some 3) ∧
    ((calculateLuckPillar .Bing .Yin 1 false).map
        (fun p => (branchIndex p.earthlyBranch : Int)) = some 3) ∧
    ((calculateLuckPillar .Bing .Yin 1 false).map (fun p => p.hiddenStems) =
      (calculateLuckPillar .Bing .Yin 1 false).map (fun p =>
        (getHiddenStemsForBranch p.earthlyBranch).map (fun h =>
          { stem := h.stem, tenGod := calculateTenGod .Bing h.stem,
            strength := h.strength }))) := by
  have h := luckPillar_direction_and_stepping.2 .Bing .Yin false 1 (by norm_num) (by norm_num)
  refine ⟨?_, ?_, h.2.2⟩
  · rw [h.1]; decide
  · rw [h.2.1]; decide

/-- C2: for every input, `calculateLuckPillars` returns exactly 8 entries,
indexed 1..8 in order, with `endAge = startAge + 9` and consecutive start ages
10 years apart, hence strictly increasing and contiguous ranges. -/
theorem luckPillars_eight_and_contiguous (ys ms : HeavenlyStem)
    (mb : EarthlyBranch) (g : Gender) (dm : HeavenlyStem) (bd : JSDate) :
    ∃ lps, calculateLuckPillars ys ms mb g dm bd = some lps ∧
      lps.length = 8 ∧
      (∀ i (h : i < lps.length),
        (lps.get ⟨i, h⟩).index = i + 1 ∧
        (lps.get ⟨i, h⟩).endAge = (lps.get ⟨i, h⟩).startAge + 9) ∧
      (∀ i (h : i + 1 < lps.length) (h0 : i < lps.length),
        (lps.get ⟨i + 1, h⟩).startAge = (lps.get ⟨i, h0⟩).startAge + 10 ∧
        (lps.get ⟨i, h0⟩).endAge + 1 = (lps.get ⟨i + 1, h⟩).startAge) := by
  have hsome : ∀ n, 1 ≤ n → n ≤ 8 →
      ∃ p, calculateLuckPillar ms mb n (shouldReverseLuck ys g) = some p :=
    fun n h1 h2 => Option.isSome_iff_exists.mp
      (calculateLuckPillar_isSome ms mb (shouldReverseLuck ys g) n h1 h2)
  obtain ⟨p0, hp0⟩ := hsome 1 (by norm_num) (by norm_num)
  obtain ⟨p1, hp1⟩ := hsome 2 (by norm_num) (by norm_num)
  obtain ⟨p2, hp2⟩ := hsome 3 (by norm_num) (by norm_num)
  obtain ⟨p3, hp3⟩ := hsome 4 (by norm_num) (by norm_num)
  obtain ⟨p4, hp4⟩ := hsome 5 (by norm_num) (by norm_num)
  obtain ⟨p5, hp5⟩ := hsome 6 (by norm_num) (by norm_num)
  obtain ⟨p6, hp6⟩ := hsome 7 (by norm_num) (by norm_num)
  obtain ⟨p7, hp7⟩ := hsome 8 (by norm_num) (by norm_num)
  have hrange : List.range 8 = [0, 1, 2, 3, 4, 5, 6, 7] := rfl
  have hA : ∀ k : Nat, calculateStartAge (k + 1) bd (shouldReverseLuck ys g) =
      calculateStartAge k bd (shouldReverseLuck ys g) + 10 :=
    fun k => calculateStartAge_add_one k bd (shouldReverseLuck ys g)
  refine ⟨(List.range 8).map (fun k =>
      { index := k + 1,
        startAge := calculateStartAge (k + 1) bd (shouldReverseLuck ys g),
        endAge := calculateStartAge (k + 1) bd (shouldReverseLuck ys g) + 9,
        pillar := [p0, p1, p2, p3, p4, p5, p6, p7].getD k p0 }), ?_, ?_, ?_, ?_⟩
  · simp only [calculateLuckPillars, hrange]
    simp [List.mapM.loop, hp0, hp1, hp2, hp3, hp4, hp5, hp6, hp7]
  · simp
  · intro i h
    have h8 : i < 8 := by simpa using h
    interval_cases i <;> simp [hrange]
  · intro i h h0
    have h8 : i + 1 < 8 := by simpa using h
    have h7 : i < 7 := by omega
    have k1 := hA 1
    have k2 := hA 2
    have k3 := hA 3
    have k4 := hA 4
    have k5 := hA 5
    have k6 := hA 6
    have k7 := hA 7
    norm_num at k1 k2 k3 k4 k5 k6 k7
    interval_cases i <;> simp [hrange] <;> omega

/-- Every entry produced for the pillar pair `(k1, k2)` carries exactly those
two keys. -/
lemma mem_pairEntries {e : InteractionEntry} {k1 k2 : PillarKey}
    {b1 b2 : EarthlyBranch} (he : e ∈ pairEntries k1 k2 b1 b2) :
    e.fromKey = k1 ∧ e.toKey = k2 := by
  unfold pairEntries at he
  simp only [List.mem_append] at he
  rcases he with ((h | h) | h) | h <;> revert h <;> split <;>
    intro h <;> simp_all

/-- Within one pillar pair's entries, each relationship type occurs at most
once. -/
lemma countP_type_pairEntries_le_one (k1 k2 : PillarKey) (b1 b2 : EarthlyBranch)
    (t : InteractionType) :
    (pairEntries k1 k2 b1 b2).countP (fun e => e.type == t) ≤ 1 := by
  unfold pairEntries
  simp only [List.countP_append]
  cases t <;> split_ifs <;>
    simp [List.countP_cons, List.countP_nil]

/-- Per-block bound for the duplicate-freedom count: a block contributes at
most one matching entry when its key pair matches (in either orientation) and
none otherwise. -/
lemma countP_pairEntries_le (K1 K2 : PillarKey) (t : InteractionType)
    (k1 k2 : PillarKey) (b1 b2 : EarthlyBranch) :
    (pairEntries k1 k2 b1 b2).countP (fun e =>
        ((e.fromKey == K1 && e.toKey == K2) || (e.fromKey == K2 && e.toKey == K1)) &&
          e.type == t) ≤
      if (k1 = K1 ∧ k2 = K2) ∨ (k1 = K2 ∧ k2 = K1) then 1 else 0 := by
  split
  · exact le_trans
      (List.countP_mono_left (fun e _ hp => by
        simp only [Bool.and_eq_true] at hp
        exact hp.2))
      (countP_type_pairEntries_le_one k1 k2 b1 b2 t)
  · rename_i hmis
    rw [Nat.le_zero, List.countP_eq_zero]
    intro e he
    obtain ⟨hf, ht⟩ := mem_pairEntries he
    simp only [hf, ht, Bool.and_eq_true, Bool.or_eq_true, beq_iff_eq]
    rintro ⟨⟨h1, h2⟩ | ⟨h1, h2⟩, -⟩ <;> exact hmis (by tauto)

/-- Among the six pillar pairs, at most one matches a given unordered key
pair, so the per-block bounds sum to at most one. -/
lemma six_ite_le_one (K1 K2 : PillarKey) :
    ((if (PillarKey.year = K1 ∧ PillarKey.month = K2) ∨
          (PillarKey.year = K2 ∧ PillarKey.month = K1) then 1 else 0) +
      (if (PillarKey.year = K1 ∧ PillarKey.day = K2) ∨
          (PillarKey.year = K2 ∧ PillarKey.day = K1) then 1 else 0) +
      (if (PillarKey.year = K1 ∧ PillarKey.hour = K2) ∨
          (PillarKey.year = K2 ∧ PillarKey.hour = K1) then 1 else 0) +
      (if (PillarKey.month = K1 ∧ PillarKey.day = K2) ∨
          (PillarKey.month = K2 ∧ PillarKey.day = K1) then 1 else 0) +
      (if (PillarKey.month = K1 ∧ PillarKey.hour = K2) ∨
          (PillarKey.month = K2 ∧ PillarKey.hour = K1) then 1 else 0) +
      (if (PillarKey.day = K1 ∧ PillarKey.hour = K2) ∨
          (PillarKey.day = K2 ∧ PillarKey.hour = K1) then 1 else 0) : Nat) ≤ 1 := by
  cases K1 <;> cases K2 <;> decide

/-- C7: `calculateInteractionMatrix` produces entries only for the six
unordered pillar pairs (never self-pairs), with at most one entry per
relationship type per unordered pair, while a single pair may carry several
relationship types at once (here `Yin`/`Si` is both a punishment and a harm). -/
theorem interactionMatrix_pairs_and_no_duplicates :
    (∀ fourPillars : FourPillars,
      (∀ e ∈ (calculateInteractionMatrix fourPillars).entries,
          (e.fromKey, e.toKey) ∈ sixPillarPairs ∧ e.fromKey ≠ e.toKey) ∧
      (∀ (K1 K2 : PillarKey) (t : InteractionType),
        (calculateInteractionMatrix fourPillars).entries.countP (fun e =>
            ((e.fromKey == K1 && e.toKey == K2) || (e.fromKey == K2 && e.toKey == K1)) &&
              e.type == t) ≤ 1)) ∧
    (calculateInteractionMatrix
        ⟨⟨.Jia, .Yin, []⟩, ⟨.Ji, .Si, []⟩, ⟨.Jia, .Zi, []⟩,
          ⟨.Jia, .Zi, []⟩⟩).entries.countP (fun e =>
        e.fromKey == PillarKey.year && e.toKey == PillarKey.month) = 2 := by
  constructor
  · intro fourPillars
    constructor
    · intro e he
      simp only [calculateInteractionMatrix, List.mem_append] at he
      rcases he with ((((h | h) | h) | h) | h) | h <;>
        · obtain ⟨hf, ht⟩ := mem_pairEntries h
          rw [hf, ht]
          exact ⟨by decide, by decide⟩
    · intro K1 K2 t
      simp only [calculateInteractionMatrix, List.countP_append]
      have h1 := countP_pairEntries_le K1 K2 t .year .month
        fourPillars.year.earthlyBranch fourPillars.month.earthlyBranch
      have h2 := countP_pairEntries_le K1 K2 t .year .day
        fourPillars.year.earthlyBranch fourPillars.day.earthlyBranch
      have h3 := countP_pairEntries_le K1 K2 t .year .hour
        fourPillars.year.earthlyBranch fourPillars.hour.earthlyBranch
      have h4 := countP_pairEntries_le K1 K2 t .month .day
        fourPillars.month.earthlyBranch fourPillars.day.earthlyBranch
      have h5 := countP_pairEntries_le K1 K2 t .month .hour
        fourPillars.month.earthlyBranch fourPillars.hour.earthlyBranch
      have h6 := countP_pairEntries_le K1 K2 t .day .hour
        fourPillars.day.earthlyBranch fourPillars.hour.earthlyBranch
      exact le_trans
        (Nat.add_le_add (Nat.add_le_add (Nat.add_le_add (Nat.add_le_add
          (Nat.add_le_add h1 h2) h3) h4) h5) h6)
        (six_ite_le_one K1 K2)
  · decide

/-- Witness for C7: at a concrete four-pillar chart, membership and the
duplicate bound are discharged on an actual entry. -/
theorem interactionMatrix_pairs_and_no_duplicates_witness :
    (PillarKey.year, PillarKey.month) ∈ sixPillarPairs ∧
    (calculateInteractionMatrix
        ⟨⟨.Jia, .Yin, []⟩, ⟨.Ji, .Si, []⟩, ⟨.Jia, .Zi, []⟩,
          ⟨.Jia, .Zi, []⟩⟩).entries.countP (fun e =>
        ((e.fromKey == PillarKey.year && e.toKey == PillarKey.month) ||
          (e.fromKey == PillarKey.month && e.toKey == PillarKey.year)) &&
          e.type == InteractionType.xing) ≤ 1 := by
  have h := (interactionMatrix_pairs_and_no_duplicates.1
    ⟨⟨.Jia, .Yin, []⟩, ⟨.Ji, .Si, []⟩, ⟨.Jia, .Zi, []⟩, ⟨.Jia, .Zi, []⟩⟩)
  exact ⟨by decide, h.2 PillarKey.year PillarKey.month InteractionType.xing⟩

/-- C4: with a resolvable (non-empty) timezone, the longitude correction is
exactly `(longitude − centralMeridian) × 4` minutes: zero at the timezone's
central meridian and linear at 4 minutes per degree in either direction. -/
theorem longitudeCorrection_linear (longitude : ℚ) (tz : String) (htz : tz ≠ "") :
    computeLongitudeCorrectionMinutes longitude (some tz) =
      (longitude - getTimezoneCentralMeridian tz) * 4 ∧
    computeLongitudeCorrectionMinutes (getTimezoneCentralMeridian tz) (some tz) = 0 ∧
    (∀ d : ℚ,
      computeLongitudeCorrectionMinutes (getTimezoneCentralMeridian tz + d) (some tz) =
        4 * d) := by
  have hb : jsTruthyString (some tz) = true := by
    simp [jsTruthyString, htz]
  refine ⟨?_, ?_, fun d => ?_⟩ <;>
    simp only [computeLongitudeCorrectionMinutes, hb, if_true, Option.getD_some] <;>
    ring

/-- Witness for C4: the Shanghai meridian is 120°E; the correction vanishes
there and is −14.4 minutes at longitude 116.4. -/
theorem longitudeCorrection_linear_witness :
    getTimezoneCentralMeridian "Asia/Shanghai" = 120 ∧
    computeLongitudeCorrectionMinutes 120 (some "Asia/Shanghai") = 0 ∧
    computeLongitudeCorrectionMinutes 116.4 (some "Asia/Shanghai") = (116.4 - 120) * 4 := by
  have hm : getTimezoneCentralMeridian "Asia/Shanghai" = 120 := by decide
  have h0 := (longitudeCorrection_linear 120 "Asia/Shanghai" (by decide)).2.1
  rw [hm] at h0
  exact ⟨hm, h0, (longitudeCorrection_linear 116.4 "Asia/Shanghai" (by decide)).1⟩

/-- Counterexample for C5: the fallback path does not return the original
timestamp string — `Date#toISOString` re-serializes it as a UTC ISO string
with milliseconds and a `Z` suffix, which differs from the documented local
input format. -/
theorem fallbackSolarTime_reserializes :
    fallbackSolarTime "1990-01-15T14:30:00" =
      Except.ok
        { solarTimeIso := "1990-01-15T14:30:00.000Z"
          longitudeCorrectionMinutes := 0
          equationOfTimeMinutes := 0
          timezone := none
          applied := false
          warning := some "True Solar Time not applied (Location unknown)." } ∧
    "1990-01-15T14:30:00.000Z" ≠ "1990-01-15T14:30:00" := by
  exact ⟨by rfl, by decide⟩

/-- C5 (amended): on every parseable local timestamp the fallback returns the
same instant re-serialized via `toISOString` (not the original string), with
`applied = false`, zero corrections and a warning containing "not applied";
on unparseable input it fails with `INVALID_DATE`. -/
theorem fallbackSolarTime_contract :
    (∀ (s : String) (d : CivilDateTime), jsParseDate s = some d →
        fallbackSolarTime s =
          Except.ok
            { solarTimeIso := toISOStringUTC d
              longitudeCorrectionMinutes := 0
              equationOfTimeMinutes := 0
              timezone := none
              applied := false
              warning := some ("True Solar Time " ++ "not applied" ++
                " (Location unknown).") }) ∧
    (∀ s : String, jsParseDate s = none →
        fallbackSolarTime s = Except.error "INVALID_DATE") := by
  constructor
  · intro s d hd
    simp only [fallbackSolarTime, hd]
    rfl
  · intro s hs
    simp only [fallbackSolarTime, hs]

/-- Witness for C5: evaluation at a parseable timestamp and at
"invalid-date". -/
theorem fallbackSolarTime_contract_witness :
    fallbackSolarTime "1989-03-16T08:00:00" =
      Except.ok
        { solarTimeIso := toISOStringUTC ⟨1989, 3, 16, 8, 0, 0⟩
          longitudeCorrectionMinutes := 0
          equationOfTimeMinutes := 0
          timezone := none
          applied := false
          warning := some ("True Solar Time " ++ "not applied" ++
            " (Location unknown).") } ∧
    fallbackSolarTime "invalid-date" = Except.error "INVALID_DATE" :=
  ⟨fallbackSolarTime_contract.1 "1989-03-16T08:00:00" ⟨1989, 3, 16, 8, 0, 0⟩ (by decide),
   fallbackSolarTime_contract.2 "invalid-date" (by decide)⟩

/-- Counterexample for C6: the fallback path's error on "invalid-date" is
`INVALID_DATE`, which is not the `INVALID_DATE_FORMAT` error the corrected
path raises. -/
theorem invalidDate_error_names_differ :
    fallbackSolarTime "invalid-date" = Except.error "INVALID_DATE" ∧
    ("INVALID_DATE" : String) ≠ "INVALID_DATE_FORMAT" := by
  exact ⟨by rfl, by decide⟩

/-- C6 (amended): on "invalid-date", neither path returns a `SolarTimeResult`:
the corrected path fails with `INVALID_DATE_FORMAT` (for every platform and
every geo result with a truthy timezone) and the fallback path fails with
`INVALID_DATE`. -/
theorem invalidDate_both_paths_fail (pf : Platform) (geo : GeoResolutionResult)
    (htz : jsTruthyString geo.timezone = true) :
    toTrueSolarTime pf "invalid-date" geo = Except.error "INVALID_DATE_FORMAT" ∧
    fallbackSolarTime "invalid-date" = Except.error "INVALID_DATE" := by
  constructor
  · simp only [toTrueSolarTime, htz, Bool.not_true]
    rfl
  · rfl

/-- Witness for C6: both paths evaluated with a trivial platform and the
Shanghai timezone. -/
theorem invalidDate_both_paths_fail_witness :
    toTrueSolarTime ⟨0, fun _ => 0, fun _ => 0, fun _ _ => 0, fun _ _ => ""⟩
        "invalid-date" ⟨⟨39.9, 116.4⟩, some "Asia/Shanghai", false⟩ =
      Except.error "INVALID_DATE_FORMAT" ∧
    fallbackSolarTime "invalid-date" = Except.error "INVALID_DATE" :=
  invalidDate_both_paths_fail ⟨0, fun _ => 0, fun _ => 0, fun _ _ => 0, fun _ _ => ""⟩
    ⟨⟨39.9, 116.4⟩, some "Asia/Shanghai", false⟩ (by decide)

/-- Witness for C2: a concrete chart (yang year stem `Jia`, month pillar
`Bing`/`Yin`, male, born 1990-01-15 14:30) yields exactly 8 luck pillars; the
index hypotheses of the theorem are discharged at `i = 0`. -/
theorem luckPillars_eight_and_contiguous_witness :
    (calculateLuckPillars .Jia .Bing .Yin .male .Geng
        ⟨1990, 0, 15, 52200000⟩).map List.length = some 8 := by
  obtain ⟨lps, he, hlen, hidx, hstep⟩ :=
    luckPillars_eight_and_contiguous .Jia .Bing .Yin .male .Geng ⟨1990, 0, 15, 52200000⟩
  have h0 : (0 : Nat) < lps.length := by rw [hlen]; norm_num
  have h1 : (0 : Nat) + 1 < lps.length := by rw [hlen]; norm_num
  have hi0 := hidx 0 h0
  have hs0 := hstep 0 h1 h0
  rw [he]
  simp [hlen]

end Bazi
